import Mathlib

/-
Shallow embedding of the create-mvc-app scaffolding CLI
(src/bin/index.js and src/unnamed/part_000).

The CLI's action callback is a single sequential procedure: it ensures the
target directory, writes dotfiles, creates the architecture folders, writes
the app entry point, optionally writes the starter CRUD modules, writes
package.json / nodemon.json / tsconfig.json / README.md, and finally runs
git and npm as external processes.  We embed that procedure as a pure
function from the user's answers to the ordered list of filesystem and
process effects it performs, and embed the failure control flow of the
surrounding try/catch separately.  The generated starter service/controller
modules (string templates inside index.js) are additionally embedded as Lean
functions so that their runtime behavior can be reasoned about.
-/

namespace Mvc

/-- Language choice: "JavaScript" | "TypeScript" prompt. -/
inductive Language
  | javascript
  | typescript
deriving DecidableEq

/-- Architecture choice: "Simple MVC" | "3-Layer MVC" prompt. -/
inductive Architecture
  | simpleMVC
  | threeLayer
deriving DecidableEq

/-- The answers gathered by the inquirer prompts of src/bin/index.js. -/
structure Answers where
  language : Language
  architecture : Architecture
  starter : Bool
  nodemon : Bool
  git : Bool
  installDeps : Bool
deriving DecidableEq

/-- The answers gathered by src/unnamed/part_000 (it has no starter prompt). -/
structure AnswersP0 where
  language : Language
  architecture : Architecture
  nodemon : Bool
  git : Bool
  installDeps : Bool
deriving DecidableEq

/-- A generation request: the positional project-name argument plus the answers. -/
structure Request where
  projectName : String
  answers : Answers
deriving DecidableEq

/-- The test `answers.language === "TypeScript"` from the source. -/
def isTSLang : Language → Bool
  | Language.typescript => true
  | Language.javascript => false

/-- JSON values as produced by the plain JS object literals passed to fs.writeJson.
Key order of the object literals is preserved, as JSON.stringify preserves it. -/
inductive JsonVal
  | str (s : String)
  | num (n : Nat)
  | bool (b : Bool)
  | arr (xs : List JsonVal)
  | obj (fields : List (String × JsonVal))

/-- Field lookup in a JSON object (first binding wins, as in a JS object literal
with distinct keys). -/
def JsonVal.field : JsonVal → String → Option JsonVal
  | JsonVal.obj fs, k => List.lookup k fs
  | _, _ => none

/-- The `scripts.dev` entry of a package descriptor value. -/
def devScript (v : JsonVal) : Option JsonVal :=
  match JsonVal.field v "scripts" with
  | some s => JsonVal.field s "dev"
  | none => none

/-- One effect of the action callback.  Paths are lists of segments relative to
the current working directory, exactly as assembled by path.join. -/
inductive FsOp
  | ensureDir (p : List String)
  | writeFile (p : List String) (content : String)
  | writeJson (p : List String) (v : JsonVal)
  | execProcess (cwd : List String) (cmd : String) (args : List String)

/-- The path an effect touches (for execProcess, the cwd it is run in). -/
def FsOp.path : FsOp → List String
  | FsOp.ensureDir p => p
  | FsOp.writeFile p _ => p
  | FsOp.writeJson p _ => p
  | FsOp.execProcess cwd _ _ => cwd

/-- Whether the effect spawns an external process. -/
def FsOp.isExec : FsOp → Bool
  | FsOp.execProcess _ _ _ => true
  | _ => false

/-- Whether the effect is an npm invocation. -/
def FsOp.isNpm : FsOp → Bool
  | FsOp.execProcess _ cmd _ => cmd == "npm"
  | _ => false

/-- The paths of all file-writing effects in a list of ops. -/
def writePaths (ops : List FsOp) : List (List String) :=
  ops.filterMap fun op =>
    match op with
    | FsOp.writeFile p _ => some p
    | FsOp.writeJson p _ => some p
    | _ => none

/-- The paths of all directory-creating effects in a list of ops. -/
def dirPaths (ops : List FsOp) : List (List String) :=
  ops.filterMap fun op =>
    match op with
    | FsOp.ensureDir p => some p
    | _ => none

/-- baseFolders of src/bin/index.js lines 78-81; src/unnamed/part_000 lines 85-88
computes the identical list under the name `folders`. -/
def baseFolders : Architecture → List String
  | Architecture.threeLayer =>
      ["controllers", "services", "models", "routes", "config", "validation", "utils", "templates"]
  | Architecture.simpleMVC => ["controllers", "models", "routes", "views"]

/-- appContentTS of index.js lines 88-103, after the source's .trim(). -/
def appContentTS (starter : Bool) : String :=
  "import express from \"express\";\nimport dotenv from \"dotenv\";\n"
  ++ (if starter then "import userRoutes from \"./routes/user.routes\";" else "")
  ++ "\n\ndotenv.config();\nconst app = express();\napp.use(express.json());\n\n"
  ++ (if starter then "app.use(\"/api/users\", userRoutes);"
      else "app.get(\"/\", (_req, res) => \x7b res.send(\"Hello World!\"); \x7d);")
  ++ "\n\nconst PORT = process.env.PORT || 5000;\napp.listen(PORT, () => \x7b\n  console.log(`Server running on port $\x7bPORT\x7d`);\n\x7d);"

/-- appContentJS of index.js lines 105-120, after the source's .trim(). -/
def appContentJS (starter : Bool) : String :=
  "import express from \"express\";\nimport dotenv from \"dotenv\";\n"
  ++ (if starter then "import userRoutes from \"./routes/user.routes.js\";" else "")
  ++ "\n\ndotenv.config();\nconst app = express();\napp.use(express.json());\n\n"
  ++ (if starter then "app.use(\"/api/users\", userRoutes);"
      else "app.get(\"/\", (_req, res) => \x7b res.send(\"Hello World!\"); \x7d);")
  ++ "\n\nconst PORT = process.env.PORT || 5000;\napp.listen(PORT, () => \x7b\n  console.log(`Server running on port $\x7bPORT\x7d`);\n\x7d);"

/-- serviceContentTS of index.js lines 130-164, after the source's .trim(). -/
def serviceContentTS : String :=
  "type User = \x7b id: string; name: string; email: string \x7d;\n\n"
  ++ "let users: User[] = [];\n\n"
  ++ "function makeId() \x7b\n  return Math.random().toString(36).slice(2, 10);\n\x7d\n\n"
  ++ "export default \x7b\n"
  ++ "  async list() \x7b\n    return users;\n  \x7d,\n"
  ++ "  async getById(id: string) \x7b\n    return users.find(u => u.id === id) || null;\n  \x7d,\n"
  ++ "  async create(data: \x7b name: string; email: string \x7d) \x7b\n    const user: User = \x7b id: makeId(), ...data \x7d;\n    users.push(user);\n    return user;\n  \x7d,\n"
  ++ "  async update(id: string, data: Partial<Omit<User, \"id\">>) \x7b\n    const idx = users.findIndex(u => u.id === id);\n    if (idx === -1) return null;\n    users[idx] = \x7b ...users[idx], ...data \x7d;\n    return users[idx];\n  \x7d,\n"
  ++ "  async remove(id: string) \x7b\n    const idx = users.findIndex(u => u.id === id);\n    if (idx === -1) return false;\n    users.splice(idx, 1);\n    return true;\n  \x7d\n"
  ++ "\x7d;"

/-- serviceContentJS of index.js lines 166-198, after the source's .trim(). -/
def serviceContentJS : String :=
  "let users = [];\n\n"
  ++ "function makeId() \x7b\n  return Math.random().toString(36).slice(2, 10);\n\x7d\n\n"
  ++ "export default \x7b\n"
  ++ "  async list() \x7b\n    return users;\n  \x7d,\n"
  ++ "  async getById(id) \x7b\n    return users.find(u => u.id === id) || null;\n  \x7d,\n"
  ++ "  async create(data) \x7b\n    const user = \x7b id: makeId(), ...data \x7d;\n    users.push(user);\n    return user;\n  \x7d,\n"
  ++ "  async update(id, data) \x7b\n    const idx = users.findIndex(u => u.id === id);\n    if (idx === -1) return null;\n    users[idx] = \x7b ...users[idx], ...data \x7d;\n    return users[idx];\n  \x7d,\n"
  ++ "  async remove(id) \x7b\n    const idx = users.findIndex(u => u.id === id);\n    if (idx === -1) return false;\n    users.splice(idx, 1);\n    return true;\n  \x7d\n"
  ++ "\x7d;"

/-- controllerContentTS of index.js lines 206-241, after the source's .trim(). -/
def controllerContentTS : String :=
  "import \x7b Request, Response \x7d from \"express\";\nimport userService from \"../services/user.service\";\n\n"
  ++ "export default \x7b\n"
  ++ "  async list(req: Request, res: Response) \x7b\n    const data = await userService.list();\n    res.json(data);\n  \x7d,\n\n"
  ++ "  async getById(req: Request, res: Response) \x7b\n    const item = await userService.getById(req.params.id);\n    if (!item) return res.status(404).json(\x7b message: \"User not found\" \x7d);\n    res.json(item);\n  \x7d,\n\n"
  ++ "  async create(req: Request, res: Response) \x7b\n    const \x7b name, email \x7d = req.body;\n    const item = await userService.create(\x7b name, email \x7d);\n    res.status(201).json(item);\n  \x7d,\n\n"
  ++ "  async update(req: Request, res: Response) \x7b\n    const \x7b name, email \x7d = req.body;\n    const item = await userService.update(req.params.id, \x7b name, email \x7d);\n    if (!item) return res.status(404).json(\x7b message: \"User not found\" \x7d);\n    res.json(item);\n  \x7d,\n\n"
  ++ "  async remove(req: Request, res: Response) \x7b\n    const ok = await userService.remove(req.params.id);\n    if (!ok) return res.status(404).json(\x7b message: \"User not found\" \x7d);\n    res.status(204).send();\n  \x7d\n\x7d;"

/-- controllerContentJS of index.js lines 243-277, after the source's .trim(). -/
def controllerContentJS : String :=
  "import userService from \"../services/user.service.js\";\n\n"
  ++ "export default \x7b\n"
  ++ "  async list(_req, res) \x7b\n    const data = await userService.list();\n    res.json(data);\n  \x7d,\n\n"
  ++ "  async getById(req, res) \x7b\n    const item = await userService.getById(req.params.id);\n    if (!item) return res.status(404).json(\x7b message: \"User not found\" \x7d);\n    res.json(item);\n  \x7d,\n\n"
  ++ "  async create(req, res) \x7b\n    const \x7b name, email \x7d = req.body;\n    const item = await userService.create(\x7b name, email \x7d);\n    res.status(201).json(item);\n  \x7d,\n\n"
  ++ "  async update(req, res) \x7b\n    const \x7b name, email \x7d = req.body;\n    const item = await userService.update(req.params.id, \x7b name, email \x7d);\n    if (!item) return res.status(404).json(\x7b message: \"User not found\" \x7d);\n    res.json(item);\n  \x7d,\n\n"
  ++ "  async remove(req, res) \x7b\n    const ok = await userService.remove(req.params.id);\n    if (!ok) return res.status(404).json(\x7b message: \"User not found\" \x7d);\n    res.status(204).send();\n  \x7d\n\x7d;"

/-- routesContentTS of index.js lines 285-298, after the source's .trim(). -/
def routesContentTS : String :=
  "import \x7b Router \x7d from \"express\";\nimport userController from \"../controllers/user.controller\";\n\nconst router = Router();\n\nrouter.get(\"/\", userController.list);\nrouter.get(\"/:id\", userController.getById);\nrouter.post(\"/\", userController.create);\nrouter.put(\"/:id\", userController.update);\nrouter.delete(\"/:id\", userController.remove);\n\nexport default router;"

/-- routesContentJS of index.js lines 300-313, after the source's .trim(). -/
def routesContentJS : String :=
  "import \x7b Router \x7d from \"express\";\nimport userController from \"../controllers/user.controller.js\";\n\nconst router = Router();\n\nrouter.get(\"/\", userController.list);\nrouter.get(\"/:id\", userController.getById);\nrouter.post(\"/\", userController.create);\nrouter.put(\"/:id\", userController.update);\nrouter.delete(\"/:id\", userController.remove);\n\nexport default router;"

/-- The readme template of index.js lines 392-407, after the source's .trim(). -/
def readmeContent (projectName : String) (isTS : Bool) : String :=
  "# " ++ projectName
  ++ "\n\n## Endpoints (users)\n- GET /api/users\n- GET /api/users/:id\n- POST /api/users\n- PUT /api/users/:id\n- DELETE /api/users/:id\n\n## Dev\n"
  ++ (if isTS
      then "- `npm run dev` runs nodemon with ts-node.\n\n\n## Build (TS)\n- `npm run build` compiles to `dist/`.\n- `npm start` runs compiled JS."
      else "- `npm run dev` runs nodemon.\n\n## Build (TS)")

/-- pkgJson of index.js lines 322-346. -/
def pkgJson (projectName : String) (a : Answers) : JsonVal :=
  if isTSLang a.language then
    JsonVal.obj [
      ("name", JsonVal.str projectName),
      ("version", JsonVal.str "1.0.0"),
      ("description", JsonVal.str ""),
      ("main", JsonVal.str "dist/app.js"),
      ("scripts", JsonVal.obj [
        ("dev", JsonVal.str (if a.nodemon then "nodemon"
                             else "node -r ts-node/register/transpile-only src/app.ts")),
        ("build", JsonVal.str "tsc"),
        ("start", JsonVal.str "node dist/app.js")])]
  else
    JsonVal.obj [
      ("name", JsonVal.str projectName),
      ("version", JsonVal.str "1.0.0"),
      ("description", JsonVal.str ""),
      ("main", JsonVal.str "src/app.js"),
      ("scripts", JsonVal.obj [
        ("dev", JsonVal.str (if a.nodemon then "nodemon" else "node src/app.js")),
        ("start", JsonVal.str "node src/app.js")]),
      ("type", JsonVal.str "module")]

/-- nodemonJson of index.js lines 352-364. -/
def nodemonJson (isTS : Bool) : JsonVal :=
  if isTS then
    JsonVal.obj [
      ("watch", JsonVal.arr [JsonVal.str "src"]),
      ("ext", JsonVal.str "ts,js,json"),
      ("ignore", JsonVal.arr [JsonVal.str "dist"]),
      ("exec", JsonVal.str "node -r ts-node/register/transpile-only src/app.ts")]
  else
    JsonVal.obj [
      ("watch", JsonVal.arr [JsonVal.str "src"]),
      ("ext", JsonVal.str "js,json"),
      ("ignore", JsonVal.arr [JsonVal.str "dist"]),
      ("exec", JsonVal.str "node src/app.js")]

/-- tsConfig of index.js lines 370-387. -/
def tsConfigJson : JsonVal :=
  JsonVal.obj [
    ("compilerOptions", JsonVal.obj [
      ("target", JsonVal.str "ES2020"),
      ("module", JsonVal.str "CommonJS"),
      ("moduleResolution", JsonVal.str "node"),
      ("rootDir", JsonVal.str "src"),
      ("outDir", JsonVal.str "dist"),
      ("resolveJsonModule", JsonVal.bool true),
      ("esModuleInterop", JsonVal.bool true),
      ("forceConsistentCasingInFileNames", JsonVal.bool true),
      ("strict", JsonVal.bool true),
      ("skipLibCheck", JsonVal.bool true),
      ("baseUrl", JsonVal.str "src"),
      ("paths", JsonVal.obj [("*", JsonVal.arr [JsonVal.str "*"])])]),
    ("include", JsonVal.arr [JsonVal.str "src/**/*.ts"]),
    ("exclude", JsonVal.arr [JsonVal.str "node_modules", JsonVal.str "dist"])]

/-- The fixed runtime dependency list of index.js line 420. -/
def runtimeDeps : List String := ["express", "dotenv", "bcrypt", "cors", "morgan"]

/-- The devDeps list of index.js lines 421-427. -/
def devDepsFor (a : Answers) : List String :=
  if isTSLang a.language then ["typescript", "ts-node", "nodemon", "@types/node", "@types/express"]
  else if a.nodemon then ["nodemon"] else []

/-- All filesystem effects of the try block of index.js (lines 62-408), in
source order, before the external git/npm actions. -/
def fsOps (projectName : String) (a : Answers) : List FsOp :=
  let isTS := isTSLang a.language
  let ext := if isTS then "ts" else "js"
  [FsOp.ensureDir [projectName],
   FsOp.writeFile [projectName, ".gitignore"] "node_modules\ndist\n.env\n",
   FsOp.writeFile [projectName, ".env"] "PORT=5000\n",
   FsOp.ensureDir [projectName, "src"]]
  ++ ((baseFolders a.architecture).map fun f => FsOp.ensureDir [projectName, "src", f])
  ++ [FsOp.writeFile [projectName, "src", "app." ++ ext]
        (if isTS then appContentTS a.starter else appContentJS a.starter)]
  ++ (if a.starter then
        [FsOp.writeFile [projectName, "src", "services", "user.service." ++ ext]
           (if isTS then serviceContentTS else serviceContentJS),
         FsOp.writeFile [projectName, "src", "controllers", "user.controller." ++ ext]
           (if isTS then controllerContentTS else controllerContentJS),
         FsOp.writeFile [projectName, "src", "routes", "user.routes." ++ ext]
           (if isTS then routesContentTS else routesContentJS)]
      else [])
  ++ [FsOp.writeJson [projectName, "package.json"] (pkgJson projectName a)]
  ++ (if a.nodemon then [FsOp.writeJson [projectName, "nodemon.json"] (nodemonJson isTS)] else [])
  ++ (if isTS then [FsOp.writeJson [projectName, "tsconfig.json"] tsConfigJson] else [])
  ++ [FsOp.writeFile [projectName, "README.md"] (readmeContent projectName isTS ++ "\n")]

/-- The external actions of index.js lines 411-444: git init, then npm install
of the runtime deps, then npm install -D of the dev deps when that list is
non-empty (the source tests devDeps.length for truthiness). -/
def externalOps (projectName : String) (a : Answers) : List FsOp :=
  (if a.git then [FsOp.execProcess [projectName] "git" ["init"]] else [])
  ++ (if a.installDeps then
        [FsOp.execProcess [projectName] "npm" ("install" :: runtimeDeps)]
        ++ (if (devDepsFor a).length ≠ 0 then
              [FsOp.execProcess [projectName] "npm" ("install" :: "-D" :: devDepsFor a)]
            else [])
      else [])

/-- The complete effect sequence of the action callback of src/bin/index.js. -/
def scaffoldOps (projectName : String) (a : Answers) : List FsOp :=
  fsOps projectName a ++ externalOps projectName a

/-- Generation as a function of the request alone: the action callback reads
nothing else at generation time (Math.random appears only inside the generated
template text, never runs during scaffolding). -/
def generate (r : Request) : List FsOp :=
  scaffoldOps r.projectName r.answers

/-- The part_000 app template (lines 67-81), after the source's .trim(). -/
def part000AppContent : String :=
  "import express from \"express\";\nimport dotenv from \"dotenv\";\n\ndotenv.config();\nconst app = express();\napp.use(express.json());\n\napp.get(\"/\", (req, res) => \x7b\n  res.send(\"Hello World!\");\n\x7d);\n\nconst PORT = process.env.PORT || 5000;\napp.listen(PORT, () => console.log(`Server running on port $\x7bPORT\x7d`));"

/-- The complete effect sequence of the action callback of src/unnamed/part_000
(lines 57-92): it performs filesystem work only; the git and installDeps
answers are collected but never consulted, and no process is ever spawned. -/
def part000Ops (projectName : String) (a : AnswersP0) : List FsOp :=
  [FsOp.ensureDir [projectName],
   FsOp.writeFile [projectName, ".gitignore"] "node_modules\n.env\n",
   FsOp.writeFile [projectName, ".env"] "PORT=5000\n",
   FsOp.writeFile [projectName, "app." ++ (if isTSLang a.language then "ts" else "js")]
     part000AppContent]
  ++ ((baseFolders a.architecture).map fun f => FsOp.ensureDir [projectName, f])

/-- Prior state of the target directory when the run starts. -/
inductive DirState
  | absent
  | empty
  | nonEmpty
deriving DecidableEq

/-- Whether fs-extra's ensureDir throws for a target in the given prior state:
it creates the directory when absent and succeeds silently when a directory
already exists at the path, whether empty or not. -/
def ensureDirThrows : DirState → Bool
  | DirState.absent => false
  | DirState.empty => false
  | DirState.nonEmpty => false

/-- Which step of the try block throws: the target ensureDir throws according
to the target's prior state (never, per ensureDirThrows), plain writes are
assumed to succeed, and the external git / npm invocations throw according to
the two failure flags. -/
def scaffoldThrows (st : DirState) (gitFails npmFails : Bool) (target : List String) :
    FsOp → Bool
  | FsOp.ensureDir p => if p = target then ensureDirThrows st else false
  | FsOp.writeFile _ _ => false
  | FsOp.writeJson _ _ => false
  | FsOp.execProcess _ cmd _ =>
      if cmd = "git" then gitFails else if cmd = "npm" then npmFails else false

/-- Outcome of one run: the process exit code (the catch handler of index.js
line 455 sets process.exitCode = 1) and the steps attempted, including the one
that threw. -/
structure RunResult where
  exitCode : Nat
  attempted : List FsOp

/-- Sequential execution of the try block: steps run in order; the first step
that throws transfers control to the catch handler, which sets exit code 1;
every later step is skipped. -/
def runSteps (throws : FsOp → Bool) : List FsOp → RunResult
  | [] => { exitCode := 0, attempted := [] }
  | op :: rest =>
    if throws op then { exitCode := 1, attempted := [op] }
    else
      let r := runSteps throws rest
      { exitCode := r.exitCode, attempted := op :: r.attempted }

/-- A full run of the index.js action callback from a given prior target-directory
state and external-failure environment. -/
def runScaffold (st : DirState) (projectName : String) (a : Answers)
    (gitFails npmFails : Bool) : RunResult :=
  runSteps (scaffoldThrows st gitFails npmFails [projectName]) (scaffoldOps projectName a)

/-- A user record of the generated starter service modules (serviceContentTS /
serviceContentJS): \x7b id, name, email \x7d. -/
structure User where
  id : String
  name : String
  email : String
deriving DecidableEq

namespace userService

/-- remove(id) of the generated service: findIndex of the first record whose id
matches; when none matches it returns false and leaves the list alone; otherwise
it splices that record out and returns true. -/
def remove (i : String) : List User → Bool × List User
  | [] => (false, [])
  | u :: rest =>
    if u.id = i then (true, rest)
    else
      let r := remove i rest
      (r.1, u :: r.2)

/-- create(data) of the generated service, with the Math.random-derived makeId()
value passed in as genId: builds \x7b id: makeId(), ...data \x7d from data =
\x7b name, email \x7d and pushes it. -/
def create (genId : String) (data : String × String) (users : List User) :
    User × List User :=
  let user : User := { id := genId, name := data.1, email := data.2 }
  (user, users ++ [user])

/-- update(id, data) of the generated service for data = \x7b name, email \x7d
(what the generated controller always passes): findIndex of the first matching
record; null and no change when absent; otherwise the record at that index
becomes \x7b ...users[idx], ...data \x7d — id kept, name and email replaced —
and is returned. -/
def update (i : String) (data : String × String) : List User → Option User × List User
  | [] => (none, [])
  | u :: rest =>
    if u.id = i then
      let u2 : User := { u with name := data.1, email := data.2 }
      (some u2, u2 :: rest)
    else
      let r := update i data rest
      (r.1, u :: r.2)

end userService

/-- HTTP-style outcomes produced by the generated controller module. -/
inductive HttpOutcome
  | notFound
  | noContent
  | created (body : User)
  | jsonBody (body : User)
deriving DecidableEq

namespace userController

/-- remove handler of the generated controller: 404 with "User not found" when
the service returns false, otherwise an empty 204 response. -/
def remove (i : String) (users : List User) : HttpOutcome × List User :=
  let r := userService.remove i users
  if r.1 then (HttpOutcome.noContent, r.2) else (HttpOutcome.notFound, r.2)

/-- create handler of the generated controller: destructures \x7b name, email \x7d
from the body, calls the service, answers 201 with the created record. -/
def create (genId : String) (nm em : String) (users : List User) :
    HttpOutcome × List User :=
  let r := userService.create genId (nm, em) users
  (HttpOutcome.created r.1, r.2)

/-- update handler of the generated controller: passes only \x7b name, email \x7d
to the service; 404 when the service returns null, otherwise the updated record. -/
def update (i : String) (nm em : String) (users : List User) :
    HttpOutcome × List User :=
  let r := userService.update i (nm, em) users
  match r.1 with
  | none => (HttpOutcome.notFound, r.2)
  | some u => (HttpOutcome.jsonBody u, r.2)

end userController

/-- A concrete all-defaults-off JavaScript simple-MVC request used by the
concrete evaluations below. -/
def a0 : Answers :=
  { language := Language.javascript, architecture := Architecture.simpleMVC,
    starter := false, nodemon := false, git := false, installDeps := false }

/-- a0 with both external actions enabled. -/
def aGit : Answers :=
  { language := Language.javascript, architecture := Architecture.simpleMVC,
    starter := false, nodemon := false, git := true, installDeps := true }

/-- A TypeScript request with every toggle on. -/
def aTsNodemon : Answers :=
  { language := Language.typescript, architecture := Architecture.threeLayer,
    starter := true, nodemon := true, git := false, installDeps := false }

/-- A JavaScript request with only the dev-reload toggle on. -/
def aJsNodemon : Answers :=
  { language := Language.javascript, architecture := Architecture.simpleMVC,
    starter := false, nodemon := true, git := false, installDeps := false }

/-- A concrete part_000 answer set with both external-action answers affirmative. -/
def p0 : AnswersP0 :=
  { language := Language.javascript, architecture := Architecture.simpleMVC,
    nodemon := true, git := true, installDeps := true }

/-- Concrete user records for the concrete evaluations below. -/
def uA : User := { id := "a1", name := "Ada", email := "ada@example.com" }

/-- Second concrete user record. -/
def uB : User := { id := "b2", name := "Bea", email := "bea@example.com" }

theorem ensureDirThrows_false (st : DirState) : ensureDirThrows st = false := by
  cases st <;> rfl

theorem scaffoldThrows_nofail (st : DirState) (tgt : List String) (op : FsOp) :
    scaffoldThrows st false false tgt op = false := by
  cases op <;> simp [scaffoldThrows, ensureDirThrows_false]

theorem runSteps_nothrow (t : FsOp → Bool) (l : List FsOp)
    (h : ∀ op ∈ l, t op = false) :
    runSteps t l = { exitCode := 0, attempted := l } := by
  induction l with
  | nil => rfl
  | cons op rest ih =>
    have h1 : t op = false := h op (List.mem_cons_self op rest)
    have h2 : runSteps t rest = { exitCode := 0, attempted := rest } :=
      ih fun o ho => h o (List.mem_cons_of_mem op ho)
    simp [runSteps, h1, h2]

theorem runSteps_append_nothrow (t : FsOp → Bool) (l1 l2 : List FsOp)
    (h : ∀ op ∈ l1, t op = false) :
    runSteps t (l1 ++ l2) =
      { exitCode := (runSteps t l2).exitCode,
        attempted := l1 ++ (runSteps t l2).attempted } := by
  induction l1 with
  | nil => rfl
  | cons op rest ih =>
    have h1 : t op = false := h op (List.mem_cons_self op rest)
    have h2 := ih fun o ho => h o (List.mem_cons_of_mem op ho)
    simp [runSteps, h1, h2]

theorem fsOps_all_not_exec (n : String) (a : Answers) :
    ((fsOps n a).all fun op => !op.isExec) = true := by
  rcases a with ⟨l, arch, s, nm, g, i⟩
  cases l <;> cases arch <;> cases s <;> cases nm <;> rfl

theorem fsOps_throws_false (st : DirState) (gf nf : Bool) (tgt : List String)
    (n : String) (a : Answers) :
    ∀ op ∈ fsOps n a, scaffoldThrows st gf nf tgt op = false := by
  intro op hop
  have hall := fsOps_all_not_exec n a
  rw [List.all_eq_true] at hall
  have hx := hall op hop
  cases op with
  | ensureDir p => simp [scaffoldThrows, ensureDirThrows_false]
  | writeFile p c => rfl
  | writeJson p v => rfl
  | execProcess cwd cmd args => simp [FsOp.isExec] at hx

theorem fsOps_no_npm (n : String) (a : Answers) :
    ((fsOps n a).any fun op => op.isNpm) = false := by
  rcases a with ⟨l, arch, s, nm, g, i⟩
  cases l <;> cases arch <;> cases s <;> cases nm <;> rfl

theorem userService_remove_not_found (i : String) (users : List User)
    (h : ∀ u ∈ users, u.id ≠ i) :
    userService.remove i users = (false, users) := by
  induction users with
  | nil => rfl
  | cons u rest ih =>
    have hu : u.id ≠ i := h u (List.mem_cons_self u rest)
    have h2 := ih fun v hv => h v (List.mem_cons_of_mem u hv)
    simp [userService.remove, hu, h2]

theorem userService_remove_found (i : String) (users : List User)
    (h : ∃ u ∈ users, u.id = i) :
    (userService.remove i users).1 = true := by
  induction users with
  | nil => simp at h
  | cons u rest ih =>
    by_cases hu : u.id = i
    · simp [userService.remove, hu]
    · rcases h with ⟨v, hv, hvi⟩
      rcases List.mem_cons.mp hv with rfl | hv2
      · exact absurd hvi hu
      · have := ih ⟨v, hv2, hvi⟩
        simp [userService.remove, hu, this]

theorem userService_update_not_found (i nm em : String) (users : List User)
    (h : ∀ u ∈ users, u.id ≠ i) :
    userService.update i (nm, em) users = (none, users) := by
  induction users with
  | nil => rfl
  | cons u rest ih =>
    have hu : u.id ≠ i := h u (List.mem_cons_self u rest)
    have h2 := ih fun v hv => h v (List.mem_cons_of_mem u hv)
    simp [userService.update, hu, h2]

theorem userService_update_found (i nm em : String) (users : List User)
    (h : ∃ u ∈ users, u.id = i) :
    ∃ pre u post,
      users = pre ++ u :: post ∧ (∀ v ∈ pre, v.id ≠ i) ∧ u.id = i ∧
      userService.update i (nm, em) users =
        (some { id := u.id, name := nm, email := em },
         pre ++ { id := u.id, name := nm, email := em } :: post) := by
  induction users with
  | nil => simp at h
  | cons u rest ih =>
    by_cases hu : u.id = i
    · refine ⟨[], u, rest, rfl, by simp, hu, ?_⟩
      simp [userService.update, hu]
    · rcases h with ⟨v, hv, hvi⟩
      rcases List.mem_cons.mp hv with rfl | hv2
      · exact absurd hvi hu
      · obtain ⟨pre, w, post, hsplit, hpre, hwid, heq⟩ := ih ⟨v, hv2, hvi⟩
        refine ⟨u :: pre, w, post, by rw [hsplit]; rfl, ?_, hwid, ?_⟩
        · intro x hx
          rcases List.mem_cons.mp hx with rfl | hx2
          · exact hu
          · exact hpre x hx2
        · show userService.update i (nm, em) (u :: rest) = _
          simp only [userService.update, if_neg hu]
          rw [heq]
          rfl

theorem userService_update_length (i nm em : String) (users : List User) :
    (userService.update i (nm, em) users).2.length = users.length := by
  induction users with
  | nil => rfl
  | cons u rest ih =>
    by_cases hu : u.id = i
    · simp [userService.update, hu]
    · simp [userService.update, hu, ih]

set_option maxHeartbeats 1600000 in
theorem scaffold_dirs (n : String) (a : Answers) :
    dirPaths (scaffoldOps n a) =
      [[n], [n, "src"]] ++ ((baseFolders a.architecture).map fun f => [n, "src", f]) := by
  rcases a with ⟨l, arch, s, nm, g, i⟩
  cases l <;> cases arch <;> cases s <;> cases nm <;> cases g <;> cases i <;> rfl

theorem part000_dirs (n : String) (p : AnswersP0) :
    dirPaths (part000Ops n p) =
      [[n]] ++ ((baseFolders p.architecture).map fun f => [n, f]) := by
  rcases p with ⟨l, arch, nm, g, i⟩
  cases l <;> cases arch <;> rfl

/-- C3: generation is a pure, deterministic function of the GenerationRequest:
two runs of the index.js action callback given identical requests perform the
identical ordered effect list — same file paths and byte-identical contents —
and the identical materialization outcome; the embedding consumes no
timestamps, randomness, or environment beyond the request. -/
theorem generation_deterministic (st : DirState) (r1 r2 : Request) (h : r1 = r2) :
    generate r1 = generate r2 ∧
    runScaffold st r1.projectName r1.answers false false =
      runScaffold st r2.projectName r2.answers false false := by
  subst h
  exact ⟨rfl, rfl⟩

theorem generation_deterministic_witness :
    generate { projectName := "demo", answers := a0 } =
      generate { projectName := "demo", answers := a0 } ∧
    runScaffold DirState.absent "demo" a0 false false =
      runScaffold DirState.absent "demo" a0 false false :=
  generation_deterministic DirState.absent
    { projectName := "demo", answers := a0 } { projectName := "demo", answers := a0 } rfl

/-- C4: the directories created by a run are exactly the target root, the src
root, and — in this exact order — the architecture's folder list: controllers,
models, routes, views for simple MVC and controllers, services, models, routes,
config, validation, utils, templates for 3-layer MVC; part_000 creates the same
architecture folders directly under the target root.  No extras, no omissions. -/
theorem folder_sets_exact (n : String) (a : Answers) (p : AnswersP0) :
    dirPaths (scaffoldOps n a) =
      [[n], [n, "src"]] ++ ((baseFolders a.architecture).map fun f => [n, "src", f]) ∧
    dirPaths (part000Ops n p) =
      [[n]] ++ ((baseFolders p.architecture).map fun f => [n, f]) ∧
    baseFolders Architecture.simpleMVC = ["controllers", "models", "routes", "views"] ∧
    baseFolders Architecture.threeLayer =
      ["controllers", "services", "models", "routes", "config", "validation",
       "utils", "templates"] :=
  ⟨scaffold_dirs n a, part000_dirs n p, rfl, rfl⟩

/-- C7: in the generated starter modules, removing an absent id produces the
404 "not found" outcome and leaves the records alone, removing a present id
produces the empty 204 outcome, and creating from \x7b name, email \x7d
produces a 201 outcome whose record carries the generated identifier alongside
name and email. -/
theorem starter_crud_outcomes (i genId nm em : String) (users : List User) :
    ((∀ u ∈ users, u.id ≠ i) →
      userController.remove i users = (HttpOutcome.notFound, users)) ∧
    ((∃ u ∈ users, u.id = i) →
      (userController.remove i users).1 = HttpOutcome.noContent) ∧
    (userController.create genId nm em users).1 =
      HttpOutcome.created { id := genId, name := nm, email := em } := by
  refine ⟨?_, ?_, rfl⟩
  · intro h
    simp [userController.remove, userService_remove_not_found i users h]
  · intro h
    simp [userController.remove, userService_remove_found i users h]

theorem starter_crud_outcomes_witness :
    userController.remove "zz" [uA] = (HttpOutcome.notFound, [uA]) ∧
    (userController.remove "a1" [uA]).1 = HttpOutcome.noContent ∧
    (userController.create "id9" "Bob" "bob@example.com" []).1 =
      HttpOutcome.created { id := "id9", name := "Bob", email := "bob@example.com" } :=
  ⟨(starter_crud_outcomes "zz" "id9" "Bob" "bob@example.com" [uA]).1 (by decide),
   (starter_crud_outcomes "a1" "id9" "Bob" "bob@example.com" [uA]).2.1 (by decide),
   (starter_crud_outcomes "a1" "id9" "Bob" "bob@example.com" []).2.2⟩

/-- C9: every effect of the part_000 action callback, for every answer
combination, is a non-process filesystem effect on a path rooted at the target
directory; in particular answering yes to git init or dependency installation
changes nothing — no external process is ever invoked. -/
theorem part000_effects_confined (n : String) (a : AnswersP0) :
    (∀ op ∈ part000Ops n a, op.isExec = false ∧ op.path.head? = some n) ∧
    part000Ops n { a with git := true, installDeps := true } = part000Ops n a := by
  constructor
  · intro op hop
    simp only [part000Ops, List.mem_append, List.mem_cons, List.mem_map,
      List.not_mem_nil, or_false] at hop
    rcases hop with (rfl | rfl | rfl | rfl) | ⟨f, hf, rfl⟩ <;> exact ⟨rfl, rfl⟩
  · rfl

theorem part000_effects_confined_witness :
    ((FsOp.ensureDir ["demo"]).isExec = false ∧
      (FsOp.ensureDir ["demo"]).path.head? = some "demo") ∧
    part000Ops "demo" { p0 with git := true, installDeps := true } =
      part000Ops "demo" p0 :=
  ⟨(part000_effects_confined "demo" p0).1 (FsOp.ensureDir ["demo"]) (by simp [part000Ops]),
   (part000_effects_confined "demo" p0).2⟩

/-- C10: in the generated starter service, update with data = \x7b name, email
\x7d (which carries no id, as the generated controller guarantees) returns null
and leaves the record list untouched when the id is absent; when the id is
present it rewrites exactly the first matching record, keeping its original id,
leaving every other record in place, and the record count never changes. -/
theorem generated_update_frame (i nm em : String) (users : List User) :
    ((∀ u ∈ users, u.id ≠ i) → userService.update i (nm, em) users = (none, users)) ∧
    ((∃ u ∈ users, u.id = i) →
      ∃ pre u post,
        users = pre ++ u :: post ∧ (∀ v ∈ pre, v.id ≠ i) ∧ u.id = i ∧
        userService.update i (nm, em) users =
          (some { id := u.id, name := nm, email := em },
           pre ++ { id := u.id, name := nm, email := em } :: post)) ∧
    ((userService.update i (nm, em) users).2.length = users.length) :=
  ⟨userService_update_not_found i nm em users,
   userService_update_found i nm em users,
   userService_update_length i nm em users⟩

/-- C1 counterexample: with the target directory pre-existing and non-empty,
the run does not fail with a TargetAlreadyExists error before writing — file
writes are performed and the exit code is 0, because fs.ensureDir succeeds on
an existing non-empty directory and index.js performs no emptiness check. -/
theorem nonEmptyTarget_proceeds_cex :
    (runScaffold DirState.nonEmpty "demo" a0 false false).exitCode = 0 ∧
    ((runScaffold DirState.nonEmpty "demo" a0 false false).attempted.any fun op =>
      match op with
      | FsOp.writeFile _ _ => true
      | _ => false) = true := by
  constructor <;> rfl

/-- C1 amended: a run's behavior is entirely independent of the target
directory's prior state — absent, empty, or non-empty all proceed normally,
with exit code 0 and the full effect sequence when no external action fails. -/
theorem target_state_independent (st st' : DirState) (n : String) (a : Answers)
    (gf nf : Bool) :
    runScaffold st n a gf nf = runScaffold st' n a gf nf ∧
    (runScaffold st n a false false).exitCode = 0 ∧
    (runScaffold st n a false false).attempted = scaffoldOps n a := by
  have hok := runSteps_nothrow (scaffoldThrows st false false [n]) (scaffoldOps n a)
    fun op _ => scaffoldThrows_nofail st [n] op
  refine ⟨?_, ?_, ?_⟩
  · have hth : scaffoldThrows st gf nf [n] = scaffoldThrows st' gf nf [n] := by
      funext op
      cases op <;> simp [scaffoldThrows, ensureDirThrows_false]
    simp only [runScaffold]
    rw [hth]
  · simp only [runScaffold]
    rw [hok]
  · simp only [runScaffold]
    rw [hok]

/-- C2 counterexample: the project name "../etc" is non-empty-invalid (it
contains both a path separator and a parent-directory traversal segment), yet
the run performs its filesystem mutations and exits 0 — no InvalidProjectName
failure occurs and nothing is validated before mutation. -/
theorem invalid_name_proceeds_cex :
    (runScaffold DirState.absent "../etc" a0 false false).exitCode = 0 ∧
    (runScaffold DirState.absent "../etc" a0 false false).attempted.head? =
      some (FsOp.ensureDir ["../etc"]) := by
  constructor <;> rfl

/-- C2 amended: index.js performs no project-name validation at all — for
every name, including empty names and names with separators or traversal
segments, the run's very first attempted action is already the filesystem
mutation that ensures the target directory. -/
theorem no_name_validation (st : DirState) (n : String) (a : Answers)
    (gf nf : Bool) :
    (runScaffold st n a gf nf).attempted.head? = some (FsOp.ensureDir [n]) := by
  have h1 : scaffoldThrows st gf nf [n] (FsOp.ensureDir [n]) = false := by
    simp [scaffoldThrows, ensureDirThrows_false]
  simp only [runScaffold, scaffoldOps, fsOps]
  simp only [List.cons_append, List.append_assoc]
  simp [runSteps, h1]

theorem appPath_in_scaffold (n : String) (a : Answers) :
    [n, "src", "app." ++ (if isTSLang a.language then "ts" else "js")] ∈
      writePaths (scaffoldOps n a) := by
  rcases a with ⟨l, arch, s, nm, g, i⟩
  cases l <;> cases arch <;> cases s <;> cases nm <;> cases g <;> cases i <;>
    simp [writePaths, scaffoldOps, fsOps, externalOps, baseFolders, isTSLang]

theorem appPath_not_at_root (n : String) (a : Answers) :
    ¬ ([n, "app." ++ (if isTSLang a.language then "ts" else "js")] ∈
      writePaths (scaffoldOps n a)) := by
  rcases a with ⟨l, arch, s, nm, g, i⟩
  cases l <;> cases arch <;> cases s <;> cases nm <;> cases g <;> cases i <;>
    simp [writePaths, scaffoldOps, fsOps, externalOps, baseFolders, isTSLang]

theorem part000_app_at_root (n : String) (p : AnswersP0) :
    [n, "app." ++ (if isTSLang p.language then "ts" else "js")] ∈
      writePaths (part000Ops n p) := by
  rcases p with ⟨l, arch, nm, g, i⟩
  cases l <;> cases arch <;> simp [writePaths, part000Ops, baseFolders, isTSLang]

/-- C5 counterexample: for the simple-architecture, starter-off request, the
entry point is written at src/app.js, not at the project root — index.js puts
the app file under src/ in every configuration. -/
theorem simple_app_under_src_cex :
    ((writePaths (scaffoldOps "demo" a0)).contains ["demo", "src", "app.js"]) = true ∧
    ((writePaths (scaffoldOps "demo" a0)).contains ["demo", "app.js"]) = false := by
  constructor <;> rfl

/-- C5 amended: in index.js the entry-point file app.<ext> is always written
under the src/ root and never directly under the project root, for every
architecture and toggle combination; in the part_000 variant the entry point is
always written directly under the project root. -/
theorem app_file_placement (n : String) (a : Answers) (p : AnswersP0) :
    ([n, "src", "app." ++ (if isTSLang a.language then "ts" else "js")] ∈
      writePaths (scaffoldOps n a)) ∧
    (¬ ([n, "app." ++ (if isTSLang a.language then "ts" else "js")] ∈
      writePaths (scaffoldOps n a))) ∧
    ([n, "app." ++ (if isTSLang p.language then "ts" else "js")] ∈
      writePaths (part000Ops n p)) :=
  ⟨appPath_in_scaffold n a, appPath_not_at_root n a, part000_app_at_root n p⟩

theorem app_file_placement_witness :
    (["demo", "src", "app." ++ (if isTSLang a0.language then "ts" else "js")] ∈
      writePaths (scaffoldOps "demo" a0)) ∧
    (¬ (["demo", "app." ++ (if isTSLang a0.language then "ts" else "js")] ∈
      writePaths (scaffoldOps "demo" a0))) ∧
    (["demo", "app." ++ (if isTSLang p0.language then "ts" else "js")] ∈
      writePaths (part000Ops "demo" p0)) :=
  app_file_placement "demo" a0 p0

/-- C6 counterexample: with git init and dependency installation both enabled
and git init failing, the run sets exit code 1 (not 0) and npm is never
attempted — the failure is not downgraded to a warning and it does block the
other external action, because both live in the same try block whose catch
sets process.exitCode = 1. -/
theorem git_failure_aborts_cex :
    aGit.installDeps = true ∧
    (runScaffold DirState.absent "demo" aGit true false).exitCode ≠ 0 ∧
    ((runScaffold DirState.absent "demo" aGit true false).attempted.any fun op =>
      op.isNpm) = false := by
  refine ⟨rfl, ?_, ?_⟩ <;> decide

/-- C6 amended: when the enabled version-control init fails, the run is
reported as failed with process exit code 1 and dependency installation is
never attempted, regardless of the other answers and of the target state. -/
theorem external_failure_aborts (st : DirState) (n : String) (a : Answers)
    (nf : Bool) (h : a.git = true) :
    (runScaffold st n a true nf).exitCode = 1 ∧
    ((runScaffold st n a true nf).attempted.any fun op => op.isNpm) = false := by
  have hfs := fsOps_throws_false st true nf [n] n a
  have hsplit := runSteps_append_nothrow (scaffoldThrows st true nf [n])
    (fsOps n a) (externalOps n a) hfs
  have hgit : scaffoldThrows st true nf [n]
      (FsOp.execProcess [n] "git" ["init"]) = true := by
    simp [scaffoldThrows]
  have hext : runSteps (scaffoldThrows st true nf [n]) (externalOps n a) =
      { exitCode := 1, attempted := [FsOp.execProcess [n] "git" ["init"]] } := by
    simp only [externalOps, h, if_true, List.singleton_append, List.cons_append]
    simp [runSteps, hgit]
  have hrun : runScaffold st n a true nf =
      { exitCode := 1,
        attempted := fsOps n a ++ [FsOp.execProcess [n] "git" ["init"]] } := by
    simp only [runScaffold, scaffoldOps]
    rw [hsplit, hext]
  rw [hrun]
  refine ⟨rfl, ?_⟩
  rw [List.any_append, fsOps_no_npm]
  rfl

theorem external_failure_aborts_witness :
    (runScaffold DirState.absent "demo" aGit true false).exitCode = 1 ∧
    ((runScaffold DirState.absent "demo" aGit true false).attempted.any fun op =>
      op.isNpm) = false :=
  external_failure_aborts DirState.absent "demo" aGit false rfl

/-- C8 counterexample: with the typed variant and the dev-reload toggle set,
nodemon.json's exec command is the direct node invocation while package.json's
dev script is the literal "nodemon" — the exec command does not match the
package descriptor's dev script. -/
theorem nodemon_exec_vs_dev_cex :
    JsonVal.field (nodemonJson true) "exec" =
      some (JsonVal.str "node -r ts-node/register/transpile-only src/app.ts") ∧
    devScript (pkgJson "demo" aTsNodemon) = some (JsonVal.str "nodemon") ∧
    (FsOp.writeJson ["demo", "nodemon.json"] (nodemonJson true) ∈
      scaffoldOps "demo" aTsNodemon) ∧
    "node -r ts-node/register/transpile-only src/app.ts" ≠ "nodemon" := by
  refine ⟨rfl, rfl, ?_, by decide⟩
  simp [scaffoldOps, fsOps, externalOps, aTsNodemon, baseFolders, isTSLang]

/-- C8 amended: the generated dev-reload config watches src, restarts on
ts,js,json for the typed variant and js,json for the untyped one, ignores the
dist build-output directory, and its exec command equals the dev script the
package descriptor would carry with the dev-reload toggle unset (the direct
node invocation); with the toggle set, the package descriptor's dev script is
the literal "nodemon" instead. -/
theorem nodemon_config_fields (n : String) (a : Answers) (h : a.nodemon = true) :
    (FsOp.writeJson [n, "nodemon.json"] (nodemonJson (isTSLang a.language)) ∈
      scaffoldOps n a) ∧
    JsonVal.field (nodemonJson (isTSLang a.language)) "watch" =
      some (JsonVal.arr [JsonVal.str "src"]) ∧
    JsonVal.field (nodemonJson (isTSLang a.language)) "ext" =
      some (JsonVal.str (if isTSLang a.language then "ts,js,json" else "js,json")) ∧
    JsonVal.field (nodemonJson (isTSLang a.language)) "ignore" =
      some (JsonVal.arr [JsonVal.str "dist"]) ∧
    JsonVal.field (nodemonJson (isTSLang a.language)) "exec" =
      devScript (pkgJson n { a with nodemon := false }) ∧
    devScript (pkgJson n a) = some (JsonVal.str "nodemon") := by
  rcases a with ⟨l, arch, s, nm, g, i⟩
  have hnm : nm = true := h
  subst hnm
  cases l <;> cases arch <;> cases s <;> cases g <;> cases i <;>
    exact ⟨by simp [scaffoldOps, fsOps, externalOps, baseFolders, isTSLang],
           rfl, rfl, rfl, rfl, rfl⟩

theorem nodemon_config_fields_witness :
    (FsOp.writeJson ["demo", "nodemon.json"]
        (nodemonJson (isTSLang aJsNodemon.language)) ∈
      scaffoldOps "demo" aJsNodemon) ∧
    JsonVal.field (nodemonJson (isTSLang aJsNodemon.language)) "watch" =
      some (JsonVal.arr [JsonVal.str "src"]) ∧
    JsonVal.field (nodemonJson (isTSLang aJsNodemon.language)) "ext" =
      some (JsonVal.str
        (if isTSLang aJsNodemon.language then "ts,js,json" else "js,json")) ∧
    JsonVal.field (nodemonJson (isTSLang aJsNodemon.language)) "ignore" =
      some (JsonVal.arr [JsonVal.str "dist"]) ∧
    JsonVal.field (nodemonJson (isTSLang aJsNodemon.language)) "exec" =
      devScript (pkgJson "demo" { aJsNodemon with nodemon := false }) ∧
    devScript (pkgJson "demo" aJsNodemon) = some (JsonVal.str "nodemon") :=
  nodemon_config_fields "demo" aJsNodemon rfl

theorem generated_update_frame_witness :
    ∃ pre u post,
      [uA, uB] = pre ++ u :: post ∧ (∀ v ∈ pre, v.id ≠ "b2") ∧ u.id = "b2" ∧
      userService.update "b2" ("Bee", "bee@example.com") [uA, uB] =
        (some { id := u.id, name := "Bee", email := "bee@example.com" },
         pre ++ { id := u.id, name := "Bee", email := "bee@example.com" } :: post) :=
  (generated_update_frame "b2" "Bee" "bee@example.com" [uA, uB]).2.1 (by decide)

end Mvc
